import Mathlib

/-!
Verification of the `component-knob` repository: a shallow embedding of the
component loader (`src/demo/js/component-loader.js`) and the knob widget's
initialization path (`src/component-knob.js`), together with theorems that
settle the specification's claims about them.

Conventions of the embedding:
- DOM elements are identified by natural numbers; the element store (`PageDom`)
  is an association list from element id to the element's mutable state
  (class attribute, the `data-componentized` instantiation flag, and the
  computed visibility used by `isVisible`, collapsed to a boolean since the
  actual display/visibility/offsetParent triple lives in the browser).
- JavaScript objects used as string-keyed hashes (`_componentsHash`,
  `_registeredComponents`) are association lists with first-match lookup and
  in-place update, mirroring object property semantics for the keys used here.
- `Math.random()` is replaced by an explicit stream of naturals (each entry
  standing for `Math.floor(Math.random() * 10000000)`); exhausting the stream
  is a model-only `randOut` outcome.
- JavaScript exceptions become `Except` / explicit error results.
-/

/-- Mutable per-element state visible to the loader: the `class` attribute,
the `data-componentized` flag set by `initializeComponents`, and the
element's computed visibility (the `display`/`visibility`/`offsetParent`
checks of the source's `isVisible`, collapsed to one boolean supplied by the
environment). -/
structure ElemInfo where
  classAttr : String
  componentized : Bool
  visible : Bool
deriving DecidableEq, Repr

/-- The element store: element id to element state, first match wins. -/
abbrev PageDom := List (Nat × ElemInfo)

/-- Value returned by a component factory function, classified the way the
loader's checks observe it: a plain object carrying the optional `init` and
`render` capabilities (with flags saying whether those capabilities raise
when invoked), a function, a non-object primitive, or `undefined`/`null`. -/
inductive JSRet where
  | obj (hasInit hasRender initThrows renderThrows : Bool)
  | fn
  | prim
  | undef
deriving DecidableEq, Repr

/-- Result of evaluating `new oFunction(element)`: per JavaScript `new`
semantics the result is the constructor's return value when that value is an
object or a function, and otherwise the freshly created `this` object (which
carries no capabilities here since these factories do not assign to `this`).
In particular the result is never absent. -/
inductive NewResult where
  | objR (hasInit hasRender initThrows renderThrows : Bool)
  | fnR
deriving DecidableEq, Repr

/-- Embedding of `new oFunction(element)` applied to a factory's return. -/
def newCall : JSRet → NewResult
  | .obj hi hr it rt => .objR hi hr it rt
  | .fn => .fnR
  | .prim => .objR false false false false
  | .undef => .objR false false false false

/-- The `componentAPI` object built during `initializeComponents`: its
assigned id, its `context` element, and its observable capabilities. -/
structure ComponentAPI where
  id : String
  ctx : Nat
  hasInit : Bool
  hasRender : Bool
  initThrows : Bool
  renderThrows : Bool
deriving DecidableEq, Repr

/-- A component factory: given the element (by id), the value the factory
call returns. -/
abbrev Factory := Nat → JSRet

/-- One entry of `_availableComponents`: `{name: sName, func: oFunction}`.
`func` is an `Option` because `register` may be called with an undefined
initializer and `initializeComponents` re-checks `oFunction !== undefined`. -/
structure RegEntry where
  name : String
  func : Option Factory

/-- Errors that `initializeComponents` can raise.  `invalidInstance n` is the
source's thrown string "Component " + n + " does not return an api" (it
names the offending component); `initThrew`/`renderThrew` stand for an
exception propagating out of a component's `init()`/`render()`; `randOut` is
the model-only exhaustion of the random stream. -/
inductive LoadErr where
  | invalidInstance (componentName : String)
  | initThrew
  | renderThrew
  | randOut
deriving DecidableEq, Repr

/-- Whole-loader state: the element store plus the module-level mutable
variables `_componentsHash`, `_availableComponents`, `_registeredComponents`,
`_registeredForNotifications` and `api.notifying`, together with a log of the
ids whose `render()` ran (to count render invocations). -/
structure LoaderState where
  dom : PageDom
  componentsHash : List (String × List Nat)
  availableComponents : List RegEntry
  registeredComponents : List (String × ComponentAPI)
  registeredForNotifications : List ComponentAPI
  notifying : Bool
  renderLog : List String

/-- First-match lookup in a string-keyed hash, mirroring JavaScript object
property access for the keys stored by this program. -/
def jsLookup {α : Type} : List (String × α) → String → Option α
  | [], _ => none
  | (k, v) :: t, s => if k == s then some v else jsLookup t s

/-- In-place property assignment on a string-keyed hash: overwrites the first
binding of the key, or appends a new binding. -/
def setKey {α : Type} : List (String × α) → String → α → List (String × α)
  | [], k, v => [(k, v)]
  | (k0, v0) :: t, k, v =>
      if k0 == k then (k0, v) :: t else (k0, v0) :: setKey t k v

/-- Element lookup in the element store (first match). -/
def domLookup : PageDom → Nat → Option ElemInfo
  | [], _ => none
  | (i, e) :: t, x => if i == x then some e else domLookup t x

/-- Embedding of `element.setAttribute('data-componentized', true)`. -/
def setFlag : PageDom → Nat → PageDom
  | [], _ => []
  | (i, e) :: t, x =>
      if i == x then (i, { e with componentized := true }) :: t
      else (i, e) :: setFlag t x

/-- Truthiness of `element.getAttribute('data-componentized')`. -/
def isComponentized (dom : PageDom) (x : Nat) : Bool :=
  match domLookup dom x with
  | some e => e.componentized
  | none => false

/-- Embedding of the source's `isVisible(element)`: the computed-style and
offset-parent checks are collapsed into the element's `visible` field. -/
def isVisible (dom : PageDom) (x : Nat) : Bool :=
  match domLookup dom x with
  | some e => e.visible
  | none => false

/-- The source's `COMPONENT_PREFIX` constant, "js-component-". -/
def COMPONENT_MARKER : String := "js-component-"

/-- Whether `pat` is a prefix of `s`, on character lists. -/
def listStarts : List Char → List Char → Bool
  | [], _ => true
  | _ :: _, [] => false
  | a :: as, b :: bs => a == b && listStarts as bs

/-- Whether `pat` occurs as a contiguous substring of `s`, on character
lists. -/
def listContains (pat : List Char) : List Char → Bool
  | [] => listStarts pat []
  | c :: t => listStarts pat (c :: t) || listContains pat t

/-- Embedding of `s.indexOf(pat) > -1` (substring containment). -/
def jsIncludes (s pat : String) : Bool := listContains pat.data s.data

/-- Splitting a character list at every occurrence of a separator character,
with the splitting semantics of JavaScript `String.prototype.split` for a
one-character separator (adjacent separators yield empty pieces). -/
def splitChar (sep : Char) : List Char → List (List Char)
  | [] => [[]]
  | c :: t =>
      let r := splitChar sep t
      if c == sep then [] :: r
      else
        match r with
        | [] => [[c]]
        | h :: t2 => (c :: h) :: t2

/-- Embedding of `s.split(sep)` for a one-character separator. -/
def jsSplit (sep : Char) (s : String) : List String :=
  (splitChar sep s.data).map String.mk

/-- Embedding of `s.slice(n)`: drop the first `n` characters. -/
def jsSlice (s : String) (n : Nat) : String := String.mk (s.data.drop n)

/-- Inner loop of `scan`: `aClassList.forEach` over the space-separated class
tokens of one element.  For each token containing `COMPONENT_PREFIX` the
source computes `sName = sClass.slice(COMPONENT_PREFIX.length)` and appends
the element to `_componentsHash[sName]`.  Note the slice drops the first
`COMPONENT_PREFIX.length` characters of the token regardless of where inside
the token the marker occurs. -/
def scanTokens (eid : Nat) : List String → List (String × List Nat) → List (String × List Nat)
  | [], hash => hash
  | tok :: rest, hash =>
      if jsIncludes tok COMPONENT_MARKER then
        let sName := jsSlice tok COMPONENT_MARKER.length
        let bucket := (jsLookup hash sName).getD []
        scanTokens eid rest (setKey hash sName (bucket ++ [eid]))
      else scanTokens eid rest hash

/-- Outer loop of `scan`: for each element returned by the attribute-substring
query, skip it when `data-componentized` is already set, otherwise process its
class tokens. -/
def scanElems : List (Nat × ElemInfo) → List (String × List Nat) → List (String × List Nat)
  | [], hash => hash
  | (eid, e) :: rest, hash =>
      if e.componentized then scanElems rest hash
      else scanElems rest (scanTokens eid (jsSplit ' ' e.classAttr) hash)

/-- Embedding of `scan(context)`: `querySelectorAll("[class*='js-component-']")`
selects the elements whose class attribute contains the marker as a substring,
in document order; each unflagged one is bucketed by token. -/
def scan (dom : PageDom) (hash : List (String × List Nat)) : List (String × List Nat) :=
  scanElems (dom.filter (fun p => jsIncludes p.2.classAttr COMPONENT_MARKER)) hash

/-- The id built from one random draw: `"i14" + Math.floor(Math.random() * 10000000)`. -/
def mkId (r : Nat) : String := "i14" ++ toString (r % 10000000)

/-- The do/while collision loop of `initializeComponents`: draw ids until one
is not already a key of `_registeredComponents`.  Returns the id and the rest
of the random stream, or `none` when the stream is exhausted. -/
def genId : List Nat → List (String × ComponentAPI) → Option (String × List Nat)
  | [], _ => none
  | r :: rest, reg =>
      let cid := mkId r
      if (jsLookup reg cid).isSome then genId rest reg
      else some (cid, rest)

/-- Body of the per-element closure in `initializeComponents`, for a component
named `sName` with factory `f`: skip if the element is flagged; otherwise flag
it, construct via `new`, draw a fresh id, raise `invalidInstance` when the
constructed value is not of object type, record the instance, run `init` when
present, then either render immediately (visible) or push onto
`_registeredForNotifications`. -/
def initElement (sName : String) (f : Factory) (rands : List Nat)
    (st : LoaderState) (eid : Nat) : Except LoadErr (LoaderState × List Nat) :=
  if isComponentized st.dom eid then .ok (st, rands)
  else
    let dom1 := setFlag st.dom eid
    match genId rands st.registeredComponents with
    | none => .error .randOut
    | some (cid, rands1) =>
        match newCall (f eid) with
        | .fnR => .error (.invalidInstance sName)
        | .objR hi hr it rt =>
            let inst : ComponentAPI :=
              { id := cid, ctx := eid, hasInit := hi, hasRender := hr
              , initThrows := it, renderThrows := rt }
            let st1 := { st with
                           dom := dom1,
                           registeredComponents := st.registeredComponents ++ [(cid, inst)] }
            if hi && it then .error .initThrew
            else if hr then
              if isVisible dom1 eid then
                if rt then .error .renderThrew
                else .ok ({ st1 with renderLog := st1.renderLog ++ [cid] }, rands1)
              else
                .ok ({ st1 with
                         registeredForNotifications :=
                           st1.registeredForNotifications ++ [inst] }, rands1)
            else .ok (st1, rands1)

/-- The `elementInstanceArray.forEach` loop of `initializeComponents` over one
component's bucket of discovered elements. -/
def initBucket (sName : String) (f : Factory) :
    List Nat → List Nat → LoaderState → Except LoadErr (LoaderState × List Nat)
  | [], rands, st => .ok (st, rands)
  | eid :: rest, rands, st =>
      match initElement sName f rands st eid with
      | .error e => .error e
      | .ok (st1, r1) => initBucket sName f rest r1 st1

/-- The outer `for` loop of `initializeComponents` over `_availableComponents`:
components whose name has no bucket, or whose `func` is undefined, contribute
nothing. -/
def initComponentsLoop : List RegEntry → List Nat → LoaderState → Except LoadErr (LoaderState × List Nat)
  | [], rands, st => .ok (st, rands)
  | comp :: rest, rands, st =>
      match jsLookup st.componentsHash comp.name with
      | none => initComponentsLoop rest rands st
      | some bucket =>
          match comp.func with
          | none => initComponentsLoop rest rands st
          | some f =>
              match initBucket comp.name f bucket rands st with
              | .error e => .error e
              | .ok (st1, r1) => initComponentsLoop rest r1 st1

/-- Embedding of `api.initializeComponents()`. -/
def initializeComponents (rands : List Nat) (st : LoaderState) :
    Except LoadErr (LoaderState × List Nat) :=
  initComponentsLoop st.availableComponents rands st

/-- Embedding of `api.checkForNewComponents(context)`: re-scan, then
re-initialize. -/
def checkForNewComponents (rands : List Nat) (st : LoaderState) :
    Except LoadErr (LoaderState × List Nat) :=
  initializeComponents rands { st with componentsHash := scan st.dom st.componentsHash }

/-- Iterated `checkForNewComponents`, threading the random stream. -/
def checkForNewComponentsN : Nat → List Nat → LoaderState → Except LoadErr (LoaderState × List Nat)
  | 0, rands, st => .ok (st, rands)
  | k + 1, rands, st =>
      match checkForNewComponents rands st with
      | .error e => .error e
      | .ok (st1, r1) => checkForNewComponentsN k r1 st1

/-- Decimal reading of a digit-only nonempty string, else `none`. -/
def strToNat? (s : String) : Option Nat :=
  if s.data ≠ [] && s.data.all Char.isDigit then
    some (s.data.foldl (fun n c => n * 10 + (c.toNat - 48)) 0)
  else none

/-- The property read `_availableComponents[sName]` of `api.register`: a
string-keyed read on an Array that is only ever `push`ed to, so the property
is defined only for canonical numeric indices within bounds or for `length`
(Array.prototype method names are not modelled; no component is named after
one). -/
def arrayStringIndex (len : Nat) (s : String) : Bool :=
  s == "length" ||
    (match strToNat? s with
     | some n => decide (n < len) && (toString n == s)
     | none => false)

/-- Embedding of `api.register`: append `{name, func}` when the property read
is undefined, otherwise throw the duplicate-name message. -/
def register (avail : List RegEntry) (sName : String) (f : Option Factory) :
    Except String (List RegEntry) :=
  if arrayStringIndex avail.length sName then
    .error ("There is already a registered component named " ++ sName)
  else .ok (avail ++ [{ name := sName, func := f }])

/-- Embedding of `api.findInstanceById`. -/
def findInstanceById (st : LoaderState) (cid : String) : Option ComponentAPI :=
  jsLookup st.registeredComponents cid

/-- The `forEach` of `api.notifyAll` over `_registeredForNotifications`:
collects the indices to remove and the render log.  A visible instance whose
`render()` raises aborts the loop with the log accumulated so far (the
exception propagates; `toRemove` is a local and is lost). -/
def notifyLoop (dom : PageDom) :
    List ComponentAPI → Nat → List Nat → List String →
    Except (List String) (List Nat × List String)
  | [], _, toRemove, log => .ok (toRemove, log)
  | inst :: rest, i, toRemove, log =>
      if inst.hasRender && isVisible dom inst.ctx then
        if inst.renderThrows then .error log
        else notifyLoop dom rest (i + 1) (toRemove ++ [i]) (log ++ [inst.id])
      else notifyLoop dom rest (i + 1) toRemove log

/-- The `while (toRemove.length) { _registeredForNotifications.splice(toRemove.pop(), 1); }`
removal loop: indices were pushed in ascending order, popped in descending
order, each spliced out individually. -/
def spliceAll (q : List ComponentAPI) (toRemove : List Nat) : List ComponentAPI :=
  toRemove.reverse.foldl (fun acc i => acc.eraseIdx i) q

/-- Embedding of `api.notifyAll()`.  Returns the resulting state and whether a
`render()` exception propagated out of the call.  When `api.notifying` is
already set the call is a no-op.  On an exception the flag stays set and the
queue is untouched (the source has no error-path cleanup). -/
def notifyAll (st : LoaderState) : LoaderState × Bool :=
  if st.notifying then (st, false)
  else
    match notifyLoop st.dom st.registeredForNotifications 0 [] st.renderLog with
    | .error log1 => ({ st with notifying := true, renderLog := log1 }, true)
    | .ok (toRemove, log1) =>
        ({ st with
             registeredForNotifications := spliceAll st.registeredForNotifications toRemove,
             renderLog := log1,
             notifying := false }, false)

/-!
Embedding of the knob widget's initialization path (`src/component-knob.js`):
the `defaults` table, the `extend` merge helper, and `api.init`, which reads
the `data-canvas-settings` attribute, passes it through `JSON.parse`, and
merges the result over the defaults into `settings`.
-/

/-- The widget's built-in `defaults` configuration table. -/
def knobDefaults : List (String × String) :=
  [ ("radius", "75"), ("lineWidth", "10"), ("lineCap", "round")
  , ("strokeStyle", "#99CC33"), ("fillStyle", "#666666")
  , ("font", "52px sans-serif"), ("textAlign", "center") ]

/-- One step of `extend`: copy every own key of a source object onto `out`,
in key order, overwriting existing bindings. -/
def extendOne (out src : List (String × String)) : List (String × String) :=
  src.foldl (fun acc kv => setKey acc kv.1 kv.2) out

/-- Embedding of the widget's `extend(out, ...)`: later argument objects win;
falsy arguments (`none`) are skipped by the `if (!arguments[i]) continue`
guard. -/
def extend (out : List (String × String)) (args : List (Option (List (String × String)))) :
    List (String × String) :=
  args.foldl (fun acc a => match a with | none => acc | some src => extendOne acc src) out

/-- Opening-brace character, written via its code point. -/
def lbrace : Char := '\x7b'

/-- Closing-brace character, written via its code point. -/
def rbrace : Char := '\x7d'

/-- Strips one pair of surrounding double quotes. -/
def parseQuoted (s : String) : Option String :=
  match s.data with
  | c :: rest =>
      if c == '"' then
        match rest.reverse with
        | d :: midrev => if d == '"' then some (String.mk midrev.reverse) else none
        | [] => none
      else none
  | [] => none

/-- Parses one "key":"value" member of a flat JSON object. -/
def parsePair (s : String) : Option (String × String) :=
  match jsSplit ':' s with
  | [k, v] =>
      match parseQuoted k, parseQuoted v with
      | some k1, some v1 => some (k1, v1)
      | _, _ => none
  | _ => none

/-- Model of `JSON.parse` restricted to the shapes this widget stores in
`data-canvas-settings`: a flat object with double-quoted string keys and
string values and no embedded whitespace, commas or colons inside the
strings.  Every input outside that fragment is a parse failure, as it is for
the strings that actually arise on the failing paths (in particular
"[object Object]", the string coercion of a plain object, is rejected both
here and by the real `JSON.parse`). -/
def parseSettings (s : String) : Option (List (String × String)) :=
  match s.data with
  | [] => none
  | c :: rest =>
      if c == lbrace then
        match rest.reverse with
        | [] => none
        | d :: midrev =>
            if d == rbrace then
              let mid := midrev.reverse
              if mid.isEmpty then some []
              else ((splitChar ',' mid).map String.mk).mapM parsePair
            else none
      else none

/-- The knob element state that `api.init` consumes: whether
`context.getContext('2d')` yields a drawing context, and the raw
`data-canvas-settings` attribute value (`none` when the attribute is absent,
in which case `getAttribute` returns `null`). -/
structure KnobElem where
  hasCtx2d : Bool
  dataSettings : Option String
deriving DecidableEq, Repr

/-- Embedding of the knob's `api.init()`.  With no 2d context it returns
early (settings stay empty).  Otherwise `ctxSettings = getAttribute(...) || {}`
is either the attribute string (when truthy) or the plain object `\x7b\x7d`;
`JSON.parse` coerces its argument to a string, so the plain-object case
parses the string "[object Object]".  On parse success the result is merged
over the defaults into `settings`, later arguments winning. -/
def knobInit (el : KnobElem) : Except String (List (String × String)) :=
  if !el.hasCtx2d then .ok []
  else
    let raw : String :=
      match el.dataSettings with
      | some s => if s ≠ "" then s else "[object Object]"
      | none => "[object Object]"
    match parseSettings raw with
    | none => .error "SyntaxError: JSON.parse"
    | some kvs => .ok (extend [] [some knobDefaults, some kvs])

/-- Scenario used by several claims: a single marked element `eid` with class
attribute `cls` and visibility `vis`, discovered into the bucket of the one
registered component `n` whose factory is `f`; nothing instantiated yet. -/
def oneElemState (n cls : String) (eid : Nat) (vis : Bool) (f : Factory) : LoaderState :=
  { dom := [(eid, { classAttr := cls, componentized := false, visible := vis })]
  , componentsHash := [(n, [eid])]
  , availableComponents := [{ name := n, func := some f }]
  , registeredComponents := []
  , registeredForNotifications := []
  , notifying := false
  , renderLog := [] }

/-!
Helper lemmas about the hash primitives.
-/

/-- Shared concrete factory used by witnesses: an object exposing `init` and
`render`, neither of which raises. -/
def wFactory : Factory := fun _ => JSRet.obj true true false false

/-- Lookup after assignment: the assigned key reads back the new value and
other keys are unaffected. -/
theorem jsLookup_setKey {α : Type} (l : List (String × α)) (k k1 : String) (v : α) :
    jsLookup (setKey l k v) k1 = if k = k1 then some v else jsLookup l k1 := by
  induction l with
  | nil => simp [setKey, jsLookup, beq_iff_eq]
  | cons p t ih =>
      obtain ⟨k0, v0⟩ := p
      by_cases h0 : k0 = k
      · subst h0
        simp only [setKey, beq_self_eq_true, if_true, jsLookup, beq_iff_eq]
        split_ifs <;> simp_all
      · simp only [setKey, beq_iff_eq, h0, if_false, jsLookup, ih]
        split_ifs <;> simp_all

/-- Bucket membership survives further token scanning. -/
theorem mem_bucket_scanTokens_mono (eid x : Nat) (k : String) :
    ∀ (toks : List String) (hash : List (String × List Nat)),
      x ∈ (jsLookup hash k).getD [] →
      x ∈ (jsLookup (scanTokens eid toks hash) k).getD [] := by
  intro toks
  induction toks with
  | nil => intro hash h; simpa [scanTokens] using h
  | cons tok rest ih =>
      intro hash h
      by_cases hm : jsIncludes tok COMPONENT_MARKER
      · simp only [scanTokens, hm, if_true]
        apply ih
        rw [jsLookup_setKey]
        split_ifs with he
        · subst he
          simpa using Or.inl h
        · exact h
      · simp only [scanTokens, hm, if_false]
        exact ih hash h

/-- Bucket membership survives scanning further elements. -/
theorem mem_bucket_scanElems_mono (x : Nat) (k : String) :
    ∀ (l : List (Nat × ElemInfo)) (hash : List (String × List Nat)),
      x ∈ (jsLookup hash k).getD [] →
      x ∈ (jsLookup (scanElems l hash) k).getD [] := by
  intro l
  induction l with
  | nil => intro hash h; simpa [scanElems] using h
  | cons p rest ih =>
      intro hash h
      obtain ⟨eid, e⟩ := p
      by_cases hc : e.componentized
      · simp only [scanElems, hc, if_true]
        exact ih hash h
      · simp only [scanElems, hc, if_false]
        exact ih _ (mem_bucket_scanTokens_mono eid x k _ hash h)

/-- Scanning the tokens of an element puts the element into the bucket keyed
by each matching token with its first `COMPONENT_PREFIX.length` characters
dropped. -/
theorem mem_bucket_scanTokens_self (eid : Nat) (tok : String) :
    ∀ (toks : List String) (hash : List (String × List Nat)),
      tok ∈ toks → jsIncludes tok COMPONENT_MARKER = true →
      eid ∈ (jsLookup (scanTokens eid toks hash) (jsSlice tok COMPONENT_MARKER.length)).getD [] := by
  intro toks
  induction toks with
  | nil => intro hash h; exact absurd h (List.not_mem_nil tok)
  | cons t1 rest ih =>
      intro hash hmem hmatch
      rcases List.mem_cons.mp hmem with heq | htail
      · subst heq
        simp only [scanTokens, hmatch, if_true]
        apply mem_bucket_scanTokens_mono
        rw [jsLookup_setKey]
        simp
      · by_cases hm : jsIncludes t1 COMPONENT_MARKER
        · simp only [scanTokens, hm, if_true]
          exact ih _ htail hmatch
        · simp only [scanTokens, hm, if_false]
          exact ih _ htail hmatch

/-- Element-loop version of the previous lemma. -/
theorem mem_bucket_scanElems_self (eid : Nat) (e : ElemInfo) (tok : String)
    (hflag : e.componentized = false) (htok : tok ∈ jsSplit ' ' e.classAttr)
    (hmatch : jsIncludes tok COMPONENT_MARKER = true) :
    ∀ (l : List (Nat × ElemInfo)) (hash : List (String × List Nat)),
      (eid, e) ∈ l →
      eid ∈ (jsLookup (scanElems l hash) (jsSlice tok COMPONENT_MARKER.length)).getD [] := by
  intro l
  induction l with
  | nil => intro hash h; exact absurd h (List.not_mem_nil _)
  | cons p rest ih =>
      intro hash hmem
      rcases List.mem_cons.mp hmem with heq | htail
      · subst heq
        simp only [scanElems, hflag, Bool.false_eq_true, if_false]
        exact mem_bucket_scanElems_mono eid _ rest _
          (mem_bucket_scanTokens_self eid tok _ hash htok hmatch)
      · obtain ⟨i0, e0⟩ := p
        by_cases hc : e0.componentized
        · simp only [scanElems, hc, if_true]
          exact ih _ htail
        · simp only [scanElems, hc, if_false]
          exact ih _ htail

/-- C6 (amended): for every unflagged element selected by the class-substring
query and every space-separated class token containing the component marker,
`scan` appends the element to the bucket keyed by the token with its first
`COMPONENT_PREFIX.length` characters dropped.  (This equals the suffix after
the marker exactly when the token starts with the marker; see the
counterexample for a token where the marker occurs later.) -/
theorem claim_C6_scan_token_extraction (dom : PageDom) (hash : List (String × List Nat))
    (eid : Nat) (e : ElemInfo) (tok : String)
    (hmem : (eid, e) ∈ dom) (hflag : e.componentized = false)
    (hsel : jsIncludes e.classAttr COMPONENT_MARKER = true)
    (htok : tok ∈ jsSplit ' ' e.classAttr)
    (hmatch : jsIncludes tok COMPONENT_MARKER = true) :
    eid ∈ (jsLookup (scan dom hash) (jsSlice tok COMPONENT_MARKER.length)).getD [] := by
  apply mem_bucket_scanElems_self eid e tok hflag htok hmatch
  exact List.mem_filter.mpr ⟨hmem, hsel⟩

/-- Witness for C6: a concrete element with class "js-component-knob" lands
in the bucket named "knob". -/
theorem claim_C6_scan_token_extraction_witness :
    0 ∈ (jsLookup
          (scan [(0, { classAttr := "js-component-knob", componentized := false, visible := true })] [])
          (jsSlice "js-component-knob" COMPONENT_MARKER.length)).getD [] :=
  claim_C6_scan_token_extraction
    [(0, { classAttr := "js-component-knob", componentized := false, visible := true })] []
    0 { classAttr := "js-component-knob", componentized := false, visible := true }
    "js-component-knob" (by simp) rfl (by decide) (by decide) (by decide)

/-- Counterexample for C6 as stated: the token "xjs-component-foo" contains
the marker, whose suffix in the token is "foo", but the element is bucketed
under "-foo" (the token minus its first 13 characters) and the bucket "foo"
does not exist. -/
theorem claim_C6_counterexample :
    scan [(0, { classAttr := "xjs-component-foo", componentized := false, visible := true })] [] =
      [("-foo", [0])] ∧
    jsLookup
      (scan [(0, { classAttr := "xjs-component-foo", componentized := false, visible := true })] [])
      "foo" = none := by
  constructor <;> rfl

/-- C3: the source's duplicate check reads `_availableComponents[sName]` on an
Array that registrations only `push` onto, so for an ordinary component name
the property is never defined and the second registration of the same name
appends a second descriptor instead of raising the duplicate-name error. -/
theorem claim_C3_duplicate_register_not_raised :
    ((register [] "knob" (some wFactory)).bind
        (fun a => register a "knob" (some wFactory))).map (List.map RegEntry.name) =
      .ok ["knob", "knob"] := rfl

/-- C8: with the `data-canvas-settings` attribute absent, `getAttribute`
returns null, `null || \x7b\x7d` yields a plain object, and `JSON.parse`
coerces it to the unparseable string "[object Object]" — `init()` throws
instead of falling back to the defaults.  With the attribute present and
holding valid JSON, the merge does complete with caller-supplied values
winning over the defaults. -/
theorem claim_C8_init_throws_without_settings_attribute :
    knobInit { hasCtx2d := true, dataSettings := none } = .error "SyntaxError: JSON.parse" ∧
    knobInit { hasCtx2d := true, dataSettings := some "\x7b\"radius\":\"50\"\x7d" } =
      .ok [ ("radius", "50"), ("lineWidth", "10"), ("lineCap", "round")
          , ("strokeStyle", "#99CC33"), ("fillStyle", "#666666")
          , ("font", "52px sans-serif"), ("textAlign", "center") ] := by
  exact ⟨rfl, rfl⟩

/-- Helper for C4, in fully quantified form for the induction: a successful
draw is fresh with respect to the id table consulted, and the drawn id starts
with the letter i. -/
theorem genId_spec : ∀ (rands : List Nat) (reg : List (String × ComponentAPI))
    (cid : String) (rest : List Nat), genId rands reg = some (cid, rest) →
    jsLookup reg cid = none ∧ ∃ c cs, cid.data = c :: cs ∧ c.isAlpha = true := by
  intro rands
  induction rands with
  | nil => intro reg cid rest h; simp [genId] at h
  | cons r t ih =>
      intro reg cid rest h
      simp only [genId] at h
      split at h
      · exact ih reg cid rest h
      · rename_i hfresh
        obtain ⟨h1, h2⟩ := Prod.mk.injEq .. ▸ Option.some.injEq .. ▸ h
        subst h1
        refine ⟨Option.not_isSome_iff_eq_none.mp (by simpa using hfresh), ?_⟩
        refine ⟨'i', '1' :: '4' :: (toString (r % 10000000)).data, ?_, by decide⟩
        rw [mkId, String.data_append]
        exact rfl

/-- C4: every identifier produced by the collision loop of
`initializeComponents` is absent from the id-to-instance table at the time it
is generated, and begins with a letter (the literal i of the "i14" tag). -/
theorem claim_C4_generated_id_fresh_and_starts_with_letter (rands : List Nat)
    (reg : List (String × ComponentAPI)) (cid : String) (rest : List Nat)
    (h : genId rands reg = some (cid, rest)) :
    jsLookup reg cid = none ∧ ∃ c cs, cid.data = c :: cs ∧ c.isAlpha = true :=
  genId_spec rands reg cid rest h

/-- Concrete instance for the C4 witness: an id table already holding the id
"i143", probed with draws colliding once before finding "i144". -/
def wReg : List (String × ComponentAPI) :=
  [("i143", { id := "i143", ctx := 0, hasInit := false, hasRender := false
            , initThrows := false, renderThrows := false })]

/-- Witness for C4 at a concrete table and random stream. -/
theorem claim_C4_generated_id_fresh_and_starts_with_letter_witness :
    jsLookup wReg "i144" = none ∧ ∃ c cs, ("i144" : String).data = c :: cs ∧ c.isAlpha = true :=
  claim_C4_generated_id_fresh_and_starts_with_letter [3, 4] wReg "i144" [] (by decide)

/-- Concrete factory returning `undefined` for the C5 counterexample. -/
def undefFactory : Factory := fun _ => JSRet.undef

/-- Resulting loader state for the C5 counterexample run. -/
def c5Result : LoaderState :=
  { dom := [(0, { classAttr := "js-component-knob", componentized := true, visible := true })]
  , componentsHash := [("knob", [0])]
  , availableComponents := [{ name := "knob", func := some undefFactory }]
  , registeredComponents :=
      [("i140", { id := "i140", ctx := 0, hasInit := false, hasRender := false
                , initThrows := false, renderThrows := false })]
  , registeredForNotifications := []
  , notifying := false
  , renderLog := [] }

/-- Counterexample for C5 as stated: a factory that returns nothing (its
value is absent) completes initialization without any error, because under
`new` the constructed value is the fresh `this` object; no InvalidInstanceError
is raised even though the factory's return value is absent. -/
theorem claim_C5_counterexample :
    initializeComponents [0] (oneElemState "knob" "js-component-knob" 0 true undefFactory) =
      .ok (c5Result, []) := rfl

/-- C5 (amended): because the factory is invoked with `new`, the constructed
value is never absent; the InvalidInstanceError (whose message names the
offending component) is raised exactly when the constructed value is not of
object type, i.e. exactly when the factory returns a function. -/
theorem claim_C5_invalid_instance_iff_factory_returns_function
    (n cls : String) (eid r : Nat) (vis : Bool) (f : Factory) :
    initializeComponents [r] (oneElemState n cls eid vis f) =
        .error (.invalidInstance n) ↔ f eid = .fn := by
  rcases hf : f eid with ⟨hi, hr, it, rt⟩ | _ | _ | _ <;>
    simp only [initializeComponents, oneElemState, initComponentsLoop, initBucket, initElement,
      jsLookup, beq_self_eq_true, if_true, isComponentized, domLookup, genId, mkId,
      Option.isSome_none, Bool.false_eq_true, if_false, newCall, hf, isVisible, setFlag] <;>
    split_ifs <;> simp_all

/-- Shared lemma: a `notifyAll` call that finds the process-wide `notifying`
flag set returns immediately, leaving the state untouched and rendering
nothing. -/
theorem notifyAll_of_notifying (st : LoaderState) (h : st.notifying = true) :
    notifyAll st = (st, false) := by
  simp [notifyAll, h]

/-- C7: a `notifyAll()` call that occurs while another `notifyAll()` is in
progress (the `api.notifying` flag is set) is a no-op — it changes no state,
so it invokes no `render()` (the render log is unchanged) and removes nothing
from the pending-notification queue. -/
theorem claim_C7_reentrant_notifyAll_is_noop (st : LoaderState)
    (h : st.notifying = true) : notifyAll st = (st, false) :=
  notifyAll_of_notifying st h

/-- Concrete state for the C7 witness: mid-notification, with a queued
instance that would render if the loop ran. -/
def wNotifying : LoaderState :=
  { dom := [(0, { classAttr := "js-component-knob", componentized := true, visible := true })]
  , componentsHash := [("knob", [0])]
  , availableComponents := []
  , registeredComponents := []
  , registeredForNotifications :=
      [{ id := "i140", ctx := 0, hasInit := true, hasRender := true
       , initThrows := false, renderThrows := false }]
  , notifying := true
  , renderLog := [] }

/-- Witness for C7 at a concrete mid-notification state. -/
theorem claim_C7_reentrant_notifyAll_is_noop_witness :
    notifyAll wNotifying = (wNotifying, false) :=
  claim_C7_reentrant_notifyAll_is_noop wNotifying rfl

/-- Helper for C10: if some queued instance has a `render` capability, is
visible, and raises when rendered, the notification loop aborts with an
exception (carrying whatever log the earlier renders produced). -/
theorem notifyLoop_error_of_mem (dom : PageDom) (inst : ComponentAPI)
    (hr : inst.hasRender = true) (hv : isVisible dom inst.ctx = true)
    (ht : inst.renderThrows = true) :
    ∀ (q : List ComponentAPI) (i : Nat) (toRemove : List Nat) (log : List String),
      inst ∈ q → ∃ log1, notifyLoop dom q i toRemove log = .error log1 := by
  intro q
  induction q with
  | nil => intro i toRemove log h; exact absurd h (List.not_mem_nil _)
  | cons a rest ih =>
      intro i toRemove log hmem
      rcases List.mem_cons.mp hmem with heq | htail
      · subst heq
        refine ⟨log, ?_⟩
        simp [notifyLoop, hr, hv, ht]
      · by_cases ha : a.hasRender && isVisible dom a.ctx
        · by_cases hat : a.renderThrows
          · exact ⟨log, by simp [notifyLoop, ha, hat]⟩
          · simpa [notifyLoop, ha, hat] using
              ih (i + 1) (toRemove ++ [i]) (log ++ [a.id]) htail
        · simpa [notifyLoop, ha] using ih (i + 1) toRemove log htail

/-- C10: when a queued, visible instance's `render()` raises during
`notifyAll()`, the exception propagates before the `notifying` flag is reset
and before any queue removal happens (there is no error-path cleanup), so
the resulting state keeps `notifying = true` and the whole queue, and every
subsequent `notifyAll()` call is a no-op that renders nothing and removes
nothing. -/
theorem claim_C10_render_exception_wedges_notifyAll (st : LoaderState)
    (inst : ComponentAPI) (hn : st.notifying = false)
    (hmem : inst ∈ st.registeredForNotifications)
    (hr : inst.hasRender = true) (hv : isVisible st.dom inst.ctx = true)
    (ht : inst.renderThrows = true) :
    ∃ log1,
      notifyAll st = ({ st with notifying := true, renderLog := log1 }, true) ∧
      notifyAll { st with notifying := true, renderLog := log1 } =
        ({ st with notifying := true, renderLog := log1 }, false) := by
  obtain ⟨log1, hloop⟩ :=
    notifyLoop_error_of_mem st.dom inst hr hv ht st.registeredForNotifications 0 [] st.renderLog hmem
  refine ⟨log1, ?_, notifyAll_of_notifying _ rfl⟩
  simp [notifyAll, hn, hloop]

/-- Concrete state for the C10 witness: one queued visible instance whose
`render()` raises. -/
def wThrowing : LoaderState :=
  { dom := [(0, { classAttr := "js-component-knob", componentized := true, visible := true })]
  , componentsHash := [("knob", [0])]
  , availableComponents := []
  , registeredComponents := []
  , registeredForNotifications :=
      [{ id := "i140", ctx := 0, hasInit := true, hasRender := true
       , initThrows := false, renderThrows := true }]
  , notifying := false
  , renderLog := [] }

/-- Witness for C10 at a concrete throwing state. -/
theorem claim_C10_render_exception_wedges_notifyAll_witness :
    ∃ log1,
      notifyAll wThrowing = ({ wThrowing with notifying := true, renderLog := log1 }, true) ∧
      notifyAll { wThrowing with notifying := true, renderLog := log1 } =
        ({ wThrowing with notifying := true, renderLog := log1 }, false) :=
  claim_C10_render_exception_wedges_notifyAll wThrowing
    { id := "i140", ctx := 0, hasInit := true, hasRender := true
    , initThrows := false, renderThrows := true }
    rfl (by decide) rfl rfl rfl

/-- C1: an instance with a `render` capability whose element is hidden at
initialization time is not rendered by `initializeComponents` (the render log
stays empty) but is appended to the pending-notification queue; once the
element becomes visible, the first `notifyAll()` renders it exactly once (the
log becomes exactly one entry) and removes it from the queue, and a second
`notifyAll()` changes nothing — in particular it does not render again. -/
theorem claim_C1_hidden_element_rendered_exactly_once_after_notify
    (n cls : String) (eid r : Nat) (hi : Bool) (f : Factory)
    (hf : f eid = .obj hi true false false) :
    initializeComponents [r] (oneElemState n cls eid false f) =
      .ok ({ dom := [(eid, { classAttr := cls, componentized := true, visible := false })]
           , componentsHash := [(n, [eid])]
           , availableComponents := [{ name := n, func := some f }]
           , registeredComponents :=
               [(mkId r, { id := mkId r, ctx := eid, hasInit := hi, hasRender := true
                         , initThrows := false, renderThrows := false })]
           , registeredForNotifications :=
               [{ id := mkId r, ctx := eid, hasInit := hi, hasRender := true
                , initThrows := false, renderThrows := false }]
           , notifying := false
           , renderLog := [] }, []) ∧
    notifyAll
      { dom := [(eid, { classAttr := cls, componentized := true, visible := true })]
      , componentsHash := [(n, [eid])]
      , availableComponents := [{ name := n, func := some f }]
      , registeredComponents :=
          [(mkId r, { id := mkId r, ctx := eid, hasInit := hi, hasRender := true
                    , initThrows := false, renderThrows := false })]
      , registeredForNotifications :=
          [{ id := mkId r, ctx := eid, hasInit := hi, hasRender := true
           , initThrows := false, renderThrows := false }]
      , notifying := false
      , renderLog := [] } =
      ({ dom := [(eid, { classAttr := cls, componentized := true, visible := true })]
       , componentsHash := [(n, [eid])]
       , availableComponents := [{ name := n, func := some f }]
       , registeredComponents :=
           [(mkId r, { id := mkId r, ctx := eid, hasInit := hi, hasRender := true
                     , initThrows := false, renderThrows := false })]
       , registeredForNotifications := []
       , notifying := false
       , renderLog := [mkId r] }, false) ∧
    notifyAll
      { dom := [(eid, { classAttr := cls, componentized := true, visible := true })]
      , componentsHash := [(n, [eid])]
      , availableComponents := [{ name := n, func := some f }]
      , registeredComponents :=
          [(mkId r, { id := mkId r, ctx := eid, hasInit := hi, hasRender := true
                    , initThrows := false, renderThrows := false })]
      , registeredForNotifications := []
      , notifying := false
      , renderLog := [mkId r] } =
      ({ dom := [(eid, { classAttr := cls, componentized := true, visible := true })]
       , componentsHash := [(n, [eid])]
       , availableComponents := [{ name := n, func := some f }]
       , registeredComponents :=
           [(mkId r, { id := mkId r, ctx := eid, hasInit := hi, hasRender := true
                     , initThrows := false, renderThrows := false })]
       , registeredForNotifications := []
       , notifying := false
       , renderLog := [mkId r] }, false) := by
  refine ⟨?_, ?_, ?_⟩
  · simp [initializeComponents, oneElemState, initComponentsLoop, initBucket, initElement,
      jsLookup, isComponentized, domLookup, genId, mkId, hf, newCall, setFlag, isVisible]
  · simp [notifyAll, notifyLoop, isVisible, domLookup, spliceAll]
  · simp [notifyAll, notifyLoop, spliceAll]

/-- Witness for C1 at a concrete component, element and random draw. -/
theorem claim_C1_hidden_element_rendered_exactly_once_after_notify_witness :
    initializeComponents [5] (oneElemState "knob" "js-component-knob" 0 false wFactory) =
      .ok ({ dom := [(0, { classAttr := "js-component-knob", componentized := true, visible := false })]
           , componentsHash := [("knob", [0])]
           , availableComponents := [{ name := "knob", func := some wFactory }]
           , registeredComponents :=
               [(mkId 5, { id := mkId 5, ctx := 0, hasInit := true, hasRender := true
                         , initThrows := false, renderThrows := false })]
           , registeredForNotifications :=
               [{ id := mkId 5, ctx := 0, hasInit := true, hasRender := true
                , initThrows := false, renderThrows := false }]
           , notifying := false
           , renderLog := [] }, []) ∧
    notifyAll
      { dom := [(0, { classAttr := "js-component-knob", componentized := true, visible := true })]
      , componentsHash := [("knob", [0])]
      , availableComponents := [{ name := "knob", func := some wFactory }]
      , registeredComponents :=
          [(mkId 5, { id := mkId 5, ctx := 0, hasInit := true, hasRender := true
                    , initThrows := false, renderThrows := false })]
      , registeredForNotifications :=
          [{ id := mkId 5, ctx := 0, hasInit := true, hasRender := true
           , initThrows := false, renderThrows := false }]
      , notifying := false
      , renderLog := [] } =
      ({ dom := [(0, { classAttr := "js-component-knob", componentized := true, visible := true })]
       , componentsHash := [("knob", [0])]
       , availableComponents := [{ name := "knob", func := some wFactory }]
       , registeredComponents :=
           [(mkId 5, { id := mkId 5, ctx := 0, hasInit := true, hasRender := true
                     , initThrows := false, renderThrows := false })]
       , registeredForNotifications := []
       , notifying := false
       , renderLog := [mkId 5] }, false) ∧
    notifyAll
      { dom := [(0, { classAttr := "js-component-knob", componentized := true, visible := true })]
      , componentsHash := [("knob", [0])]
      , availableComponents := [{ name := "knob", func := some wFactory }]
      , registeredComponents :=
          [(mkId 5, { id := mkId 5, ctx := 0, hasInit := true, hasRender := true
                    , initThrows := false, renderThrows := false })]
      , registeredForNotifications := []
      , notifying := false
      , renderLog := [mkId 5] } =
      ({ dom := [(0, { classAttr := "js-component-knob", componentized := true, visible := true })]
       , componentsHash := [("knob", [0])]
       , availableComponents := [{ name := "knob", func := some wFactory }]
       , registeredComponents :=
           [(mkId 5, { id := mkId 5, ctx := 0, hasInit := true, hasRender := true
                     , initThrows := false, renderThrows := false })]
       , registeredForNotifications := []
       , notifying := false
       , renderLog := [mkId 5] }, false) :=
  claim_C1_hidden_element_rendered_exactly_once_after_notify
    "knob" "js-component-knob" 0 5 true wFactory rfl

/-- Scanning a list of elements that are all flagged leaves the hash
unchanged. -/
theorem scanElems_all_flagged :
    ∀ (l : List (Nat × ElemInfo)) (hash : List (String × List Nat)),
      (∀ p ∈ l, p.2.componentized = true) → scanElems l hash = hash := by
  intro l
  induction l with
  | nil => intro hash _; rfl
  | cons p rest ih =>
      intro hash h
      obtain ⟨eid, e⟩ := p
      have he : e.componentized = true := h (eid, e) (List.mem_cons_self _ _)
      simp only [scanElems, he, if_true]
      exact ih hash (fun q hq => h q (List.mem_cons_of_mem _ hq))

/-- Scan is the identity on the hash when every element carrying the marker
substring is already flagged. -/
theorem scan_all_flagged (dom : PageDom) (hash : List (String × List Nat))
    (h : ∀ p ∈ dom, jsIncludes p.2.classAttr COMPONENT_MARKER = true →
          p.2.componentized = true) :
    scan dom hash = hash := by
  apply scanElems_all_flagged
  intro p hp
  obtain ⟨hmem, hsel⟩ := List.mem_filter.mp hp
  exact h p hmem hsel

/-- A bucket whose elements are all flagged is skipped wholesale by the
initialization loop. -/
theorem initBucket_all_flagged (sName : String) (f : Factory) :
    ∀ (bucket : List Nat) (rands : List Nat) (st : LoaderState),
      (∀ eid ∈ bucket, isComponentized st.dom eid = true) →
      initBucket sName f bucket rands st = .ok (st, rands) := by
  intro bucket
  induction bucket with
  | nil => intro rands st _; rfl
  | cons eid rest ih =>
      intro rands st h
      have he : isComponentized st.dom eid = true := h eid (List.mem_cons_self _ _)
      simp only [initBucket, initElement, he, if_true]
      exact ih rands st (fun q hq => h q (List.mem_cons_of_mem _ hq))

/-- When every discovered element is flagged, the whole component loop is the
identity. -/
theorem initLoop_all_flagged :
    ∀ (comps : List RegEntry) (rands : List Nat) (st : LoaderState),
      (∀ nm b, jsLookup st.componentsHash nm = some b →
        ∀ eid ∈ b, isComponentized st.dom eid = true) →
      initComponentsLoop comps rands st = .ok (st, rands) := by
  intro comps
  induction comps with
  | nil => intro rands st _; rfl
  | cons comp rest ih =>
      intro rands st h
      rw [initComponentsLoop]
      rcases hb : jsLookup st.componentsHash comp.name with _ | bucket
      · exact ih rands st h
      · rcases hfn : comp.func with _ | f
        · exact ih rands st h
        · simp only [initBucket_all_flagged comp.name f bucket rands st (h comp.name bucket hb)]
          exact ih rands st h

/-- C2: on a state whose marked elements are all already instantiated (every
element carrying the marker is flagged, and every bucketed element is
flagged), running scan followed by initializeComponents any number of times
returns the state — and in particular the random stream — completely
unchanged: no additional instance is created, idempotence. -/
theorem claim_C2_scan_initialize_idempotent_on_instantiated (st : LoaderState)
    (rands : List Nat)
    (h1 : ∀ p ∈ st.dom, jsIncludes p.2.classAttr COMPONENT_MARKER = true →
            p.2.componentized = true)
    (h2 : ∀ nm b, jsLookup st.componentsHash nm = some b →
            ∀ eid ∈ b, isComponentized st.dom eid = true)
    (k : Nat) :
    checkForNewComponentsN k rands st = .ok (st, rands) := by
  induction k with
  | zero => rfl
  | succ k ih =>
      have hone : checkForNewComponents rands st = .ok (st, rands) := by
        rw [checkForNewComponents, scan_all_flagged st.dom st.componentsHash h1]
        exact initLoop_all_flagged st.availableComponents rands st h2
      rw [checkForNewComponentsN]
      simp only [hone]
      exact ih

/-- Concrete already-instantiated state for the C2 witness. -/
def wDone : LoaderState :=
  { dom := [(0, { classAttr := "js-component-knob", componentized := true, visible := true })]
  , componentsHash := [("knob", [0])]
  , availableComponents := [{ name := "knob", func := some wFactory }]
  , registeredComponents :=
      [("i145", { id := "i145", ctx := 0, hasInit := true, hasRender := true
                , initThrows := false, renderThrows := false })]
  , registeredForNotifications := []
  , notifying := false
  , renderLog := ["i145"] }

/-- Witness for C2: three further scan+initialize passes over the
already-instantiated state change nothing. -/
theorem claim_C2_scan_initialize_idempotent_on_instantiated_witness :
    checkForNewComponentsN 3 [9] wDone = .ok (wDone, [9]) :=
  claim_C2_scan_initialize_idempotent_on_instantiated wDone [9]
    (by
      intro p hp _
      rcases List.mem_singleton.mp hp with rfl
      rfl)
    (by
      intro nm b hb eid he
      simp only [wDone, jsLookup] at hb
      split at hb
      · obtain rfl : [0] = b := by simpa using hb
        rcases List.mem_singleton.mp he with rfl
        rfl
      · cases hb)
    3

/-- Effect of flagging an element on later lookups: only the flagged key is
affected, and only in its `componentized` field. -/
theorem domLookup_setFlag (d : PageDom) (e x : Nat) :
    domLookup (setFlag d e) x =
      if e == x then (domLookup d x).map (fun el => { el with componentized := true })
      else domLookup d x := by
  induction d with
  | nil => simp [setFlag, domLookup]
  | cons p t ih =>
      obtain ⟨i, el⟩ := p
      simp only [setFlag]
      by_cases hie : (i == e) = true
      · have hie1 : i = e := by simpa using hie
        subst hie1
        simp only [hie, if_true, domLookup]
        by_cases hix : (i == x) = true
        · simp [hix]
        · simp [domLookup, hix]
      · simp only [hie, Bool.false_eq_true, if_false, domLookup]
        by_cases hix : (i == x) = true
        · have hix1 : i = x := by simpa using hix
          have hex : (e == x) = false := by
            rw [beq_eq_false_iff_ne]
            intro hex1
            subst hex1
            subst hix1
            simp at hie
          simp [hix, hex]
        · simp [hix, ih]

/-- The instantiation flag after `setFlag`, as a case split. -/
theorem isComponentized_setFlag (d : PageDom) (e x : Nat) :
    isComponentized (setFlag d e) x =
      if e == x then (domLookup d x).isSome else isComponentized d x := by
  rw [isComponentized, domLookup_setFlag]
  split_ifs with h
  · cases hdl : domLookup d x <;> simp
  · rw [isComponentized]

/-- Flagging never clears a flag. -/
theorem isComponentized_setFlag_mono (d : PageDom) (e x : Nat)
    (h : isComponentized d x = true) : isComponentized (setFlag d e) x = true := by
  rw [isComponentized_setFlag]
  split_ifs with hex
  · rw [isComponentized] at h
    cases hdl : domLookup d x
    · rw [hdl] at h; cases h
    · rfl
  · exact h

/-- Flagging an element that exists sets its flag. -/
theorem isComponentized_setFlag_self (d : PageDom) (e : Nat) (el : ElemInfo)
    (h : domLookup d e = some el) : isComponentized (setFlag d e) e = true := by
  rw [isComponentized_setFlag]
  simp [h]

/-- Processing one element preserves the flag of an already-flagged element
`x`, adds no instance whose context is `x`, and leaves the discovery hash
unchanged. -/
theorem initElement_preserves (sName : String) (f : Factory) (rands : List Nat)
    (st st2 : LoaderState) (r2 : List Nat) (eid x : Nat)
    (hx : isComponentized st.dom x = true)
    (h : initElement sName f rands st eid = .ok (st2, r2)) :
    isComponentized st2.dom x = true ∧
    st2.registeredComponents.filter (fun p => p.2.ctx == x) =
      st.registeredComponents.filter (fun p => p.2.ctx == x) ∧
    st2.componentsHash = st.componentsHash := by
  rw [initElement] at h
  split at h
  · obtain ⟨rfl, rfl⟩ : st = st2 ∧ rands = r2 := by simpa using h
    exact ⟨hx, rfl, rfl⟩
  · rename_i hflag
    have hne : (eid == x) = false := by
      rw [beq_eq_false_iff_ne]
      intro he
      subst he
      exact hflag hx
    rcases hgen : genId rands st.registeredComponents with _ | ⟨cid, rands1⟩ <;>
      simp only [hgen] at h
    · cases h
    · rcases hnc : newCall (f eid) with ⟨hi, hr, it, rt⟩ | _ <;> simp only [hnc] at h
      · split_ifs at h
        all_goals
          injection h with hpair
        all_goals
          injection hpair with hst hr2
        all_goals
          subst hst
        all_goals
          subst hr2
        all_goals
          refine ⟨isComponentized_setFlag_mono st.dom eid x hx, ?_, rfl⟩
        all_goals
          simp [List.filter_append, hne]
      · cases h

/-- Bucket-loop version of `initElement_preserves`. -/
theorem initBucket_preserves (sName : String) (f : Factory) (x : Nat) :
    ∀ (bucket rands : List Nat) (st st2 : LoaderState) (r2 : List Nat),
      isComponentized st.dom x = true →
      initBucket sName f bucket rands st = .ok (st2, r2) →
      isComponentized st2.dom x = true ∧
      st2.registeredComponents.filter (fun p => p.2.ctx == x) =
        st.registeredComponents.filter (fun p => p.2.ctx == x) ∧
      st2.componentsHash = st.componentsHash := by
  intro bucket
  induction bucket with
  | nil =>
      intro rands st st2 r2 hx h
      obtain ⟨rfl, rfl⟩ : st = st2 ∧ rands = r2 := by simpa [initBucket] using h
      exact ⟨hx, rfl, rfl⟩
  | cons eid rest ih =>
      intro rands st st2 r2 hx h
      rw [initBucket] at h
      rcases hie : initElement sName f rands st eid with err | ⟨st1, r1⟩ <;>
        simp only [hie] at h
      · cases h
      · obtain ⟨h1, h2, h3⟩ := initElement_preserves sName f rands st st1 r1 eid x hx hie
        obtain ⟨g1, g2, g3⟩ := ih r1 st1 st2 r2 h1 h
        exact ⟨g1, g2.trans h2, g3.trans h3⟩

/-- Component-loop version of `initElement_preserves`: once an element is
flagged, the rest of the initialization pass keeps it flagged and never adds
another instance for it. -/
theorem initLoop_preserves (x : Nat) :
    ∀ (comps : List RegEntry) (rands : List Nat) (st st2 : LoaderState) (r2 : List Nat),
      isComponentized st.dom x = true →
      initComponentsLoop comps rands st = .ok (st2, r2) →
      isComponentized st2.dom x = true ∧
      st2.registeredComponents.filter (fun p => p.2.ctx == x) =
        st.registeredComponents.filter (fun p => p.2.ctx == x) ∧
      st2.componentsHash = st.componentsHash := by
  intro comps
  induction comps with
  | nil =>
      intro rands st st2 r2 hx h
      obtain ⟨rfl, rfl⟩ : st = st2 ∧ rands = r2 := by simpa [initComponentsLoop] using h
      exact ⟨hx, rfl, rfl⟩
  | cons comp rest ih =>
      intro rands st st2 r2 hx h
      rw [initComponentsLoop] at h
      rcases hb : jsLookup st.componentsHash comp.name with _ | bucket <;>
        simp only [hb] at h
      · exact ih rands st st2 r2 hx h
      · rcases hfn : comp.func with _ | f <;> simp only [hfn] at h
        · exact ih rands st st2 r2 hx h
        · rcases hbk : initBucket comp.name f bucket rands st with err | ⟨st1, r1⟩ <;>
            simp only [hbk] at h
          · cases h
          · obtain ⟨h1, h2, h3⟩ := initBucket_preserves comp.name f x bucket rands st st1 r1 hx hbk
            obtain ⟨g1, g2, g3⟩ := ih r1 st1 st2 r2 h1 h
            exact ⟨g1, g2.trans h2, g3.trans h3⟩

/-- Successful processing of an unflagged element with a well-behaved factory:
the element gets flagged and exactly one new instance, built from that
factory's return value, is appended to the id table. -/
theorem initElement_create (sName : String) (f : Factory) (rands : List Nat)
    (st : LoaderState) (eid : Nat) (el : ElemInfo) (hi hr : Bool)
    (helem : domLookup st.dom eid = some el) (hflag : el.componentized = false)
    (hf : f eid = .obj hi hr false false)
    (st2 : LoaderState) (r2 : List Nat)
    (h : initElement sName f rands st eid = .ok (st2, r2)) :
    ∃ cid,
      st2.dom = setFlag st.dom eid ∧
      st2.registeredComponents = st.registeredComponents ++
        [(cid, { id := cid, ctx := eid, hasInit := hi, hasRender := hr
               , initThrows := false, renderThrows := false })] ∧
      st2.componentsHash = st.componentsHash := by
  have hc : isComponentized st.dom eid = false := by
    rw [isComponentized, helem]
    exact hflag
  rw [initElement] at h
  simp only [hc, Bool.false_eq_true, if_false] at h
  rcases hgen : genId rands st.registeredComponents with _ | ⟨cid, rands1⟩ <;>
    simp only [hgen] at h
  · cases h
  · simp only [hf, newCall] at h
    refine ⟨cid, ?_⟩
    split_ifs at h
    all_goals
      injection h with hpair
    all_goals
      injection hpair with hst hr2
    all_goals
      subst hst
    all_goals
      exact ⟨rfl, rfl, rfl⟩

/-- C9: when an element carries marker tokens for several registered
components, the earliest-registered matching component (the head of
`_availableComponents`) constructs the only instance that element ever gets:
it flags the element before construction, and the whole remaining pass —
every later component, including any whose bucket also holds the element —
adds no further instance with that element as context. -/
theorem claim_C9_multi_marker_earliest_factory_single_instance
    (nA : String) (fA : Factory) (rest : List RegEntry)
    (eid : Nat) (el : ElemInfo) (hi hr : Bool)
    (st st2 : LoaderState) (rands r2 : List Nat)
    (havail : st.availableComponents = { name := nA, func := some fA } :: rest)
    (hbucket : jsLookup st.componentsHash nA = some [eid])
    (helem : domLookup st.dom eid = some el) (hflag : el.componentized = false)
    (hreg : st.registeredComponents = [])
    (hfA : fA eid = .obj hi hr false false)
    (hok : initializeComponents rands st = .ok (st2, r2)) :
    ∃ cid, st2.registeredComponents.filter (fun p => p.2.ctx == eid) =
      [(cid, { id := cid, ctx := eid, hasInit := hi, hasRender := hr
             , initThrows := false, renderThrows := false })] := by
  rw [initializeComponents, havail, initComponentsLoop] at hok
  simp only [hbucket, initBucket] at hok
  rcases hie : initElement nA fA rands st eid with err | ⟨st1, r1⟩ <;>
    simp only [hie] at hok
  · cases hok
  · obtain ⟨cid, hdom, hregs, hhash⟩ :=
      initElement_create nA fA rands st eid el hi hr helem hflag hfA st1 r1 hie
    have hx1 : isComponentized st1.dom eid = true := by
      rw [hdom]
      exact isComponentized_setFlag_self st.dom eid el helem
    obtain ⟨g1, g2, g3⟩ := initLoop_preserves eid rest r1 st1 st2 r2 hx1 hok
    refine ⟨cid, ?_⟩
    rw [g2, hregs, hreg]
    simp

/-- Concrete state for the C9 witness: one element marked for both of the
registered components "a" and "b". -/
def wMulti : LoaderState :=
  { dom := [(0, { classAttr := "js-component-a js-component-b"
                , componentized := false, visible := true })]
  , componentsHash := [("a", [0]), ("b", [0])]
  , availableComponents :=
      [{ name := "a", func := some wFactory }, { name := "b", func := some wFactory }]
  , registeredComponents := []
  , registeredForNotifications := []
  , notifying := false
  , renderLog := [] }

/-- State after one initialization pass over `wMulti`: a single instance,
built by the factory of "a", the earlier registration. -/
def wMultiAfter : LoaderState :=
  { dom := [(0, { classAttr := "js-component-a js-component-b"
                , componentized := true, visible := true })]
  , componentsHash := [("a", [0]), ("b", [0])]
  , availableComponents :=
      [{ name := "a", func := some wFactory }, { name := "b", func := some wFactory }]
  , registeredComponents :=
      [("i145", { id := "i145", ctx := 0, hasInit := true, hasRender := true
                , initThrows := false, renderThrows := false })]
  , registeredForNotifications := []
  , notifying := false
  , renderLog := ["i145"] }

/-- Witness for C9 at the concrete double-marked element. -/
theorem claim_C9_multi_marker_earliest_factory_single_instance_witness :
    ∃ cid, wMultiAfter.registeredComponents.filter (fun p => p.2.ctx == 0) =
      [(cid, { id := cid, ctx := 0, hasInit := true, hasRender := true
             , initThrows := false, renderThrows := false })] :=
  claim_C9_multi_marker_earliest_factory_single_instance
    "a" wFactory [{ name := "b", func := some wFactory }] 0
    { classAttr := "js-component-a js-component-b", componentized := false, visible := true }
    true true wMulti wMultiAfter [5] []
    rfl rfl rfl rfl rfl rfl rfl
